import Mathlib

/-!
Verification development for the AI debate video-processing service
(`video-processor/index.js`).  The service exposes `POST /processDebateVideo`,
which validates the request body and then runs a linear seven-stage pipeline:
transcribe, generate a rebuttal, synthesize voice, render captions, mux,
publish, notify.  Each pure computation of the source (request validation,
sentence splitting, caption filter construction, quote escaping, prompt
construction, the published URL, and the job-scoped temp-file paths) is
shallow-embedded below; the external effects (subprocess invocations, cloud
storage, the generative-text API) are represented by their outcomes
(`Except String _` values) fed into the embedded control flow.
-/

namespace DebateVideo

/-! ## Request validation and pipeline control flow

Source: `app.post('/processDebateVideo', ...)` in `video-processor/index.js`.
The body is destructured into `videoUrl, fileId, fileName, userEmail, topic`;
a field absent from the JSON body is `undefined`, modelled as `none`.
The guard is `if (!videoUrl || !fileId || !userEmail)`, i.e. JavaScript
truthiness: both an absent field and the empty string fail the check. -/

structure ReqBody where
  videoUrl : Option String
  fileId : Option String
  fileName : Option String
  userEmail : Option String
  topic : Option String
deriving DecidableEq, Repr

/-- JavaScript truthiness of an optional string field: `undefined` and the
empty string are falsy, every other string is truthy. -/
def truthy : Option String → Bool
  | none => false
  | some s => !(s == "")

/-- The `!videoUrl || !fileId || !userEmail` guard of the handler. -/
def missingRequired (req : ReqBody) : Bool :=
  !truthy req.videoUrl || !truthy req.fileId || !truthy req.userEmail

/-- The pipeline stages of the handler, in source order (steps 1–7). -/
inductive Stage where
  | transcribe | generate | synthesize | caption | mux | publish | notify
deriving DecidableEq, Repr

/-- Outcome of each external stage, as seen by the handler's `await`s:
`.ok` carries the stage's result (transcript, generated text, a file path, or
the published URL), `.error` the exception message. -/
structure StageOutcomes where
  transcribe : Except String String
  generate : Except String String
  synthesize : Except String String
  caption : Except String String
  mux : Except String String
  publish : Except String String
  notify : Except String Unit
deriving Repr

/-- The JSON response body fields the claims talk about. -/
structure HttpResponse where
  status : Nat
  success : Bool
  error : Option String
  details : Option String
  finalVideoUrl : Option String
deriving DecidableEq, Repr

/-- `sendEmailNotification`: its body is wrapped in `try { ... } catch` whose
catch block only logs ("Don't fail the whole process if email fails"), so the
function returns normally whatever the delivery outcome. -/
def sendEmailNotification (attempt : Except String Unit) : Except String Unit :=
  match attempt with
  | .ok u => .ok u
  | .error _ => .ok ()

/-- The 400 response of the validation guard. -/
def validationFailResponse : HttpResponse :=
  { status := 400, success := false
    error := some "Missing required parameters: videoUrl, fileId, userEmail"
    details := none, finalVideoUrl := none }

/-- The 500 response of the handler's catch block. -/
def stageFailResponse (e : String) : HttpResponse :=
  { status := 500, success := false
    error := some "Video processing failed"
    details := some e, finalVideoUrl := none }

/-- The handler of `POST /processDebateVideo`: validation guard, then the
seven awaited stages in order; any exception from steps 1–6 reaches the
outer catch and becomes a 500; step 7 goes through `sendEmailNotification`,
which cannot throw.  Returns the response together with the list of stages
that were actually started (each stage is an external call and creates its
temp files only when started). -/
def processDebateVideo (req : ReqBody) (st : StageOutcomes) :
    HttpResponse × List Stage :=
  if missingRequired req then
    (validationFailResponse, [])
  else
    match st.transcribe with
    | .error e => (stageFailResponse e, [.transcribe])
    | .ok _ =>
    match st.generate with
    | .error e => (stageFailResponse e, [.transcribe, .generate])
    | .ok _ =>
    match st.synthesize with
    | .error e => (stageFailResponse e, [.transcribe, .generate, .synthesize])
    | .ok _ =>
    match st.caption with
    | .error e =>
        (stageFailResponse e, [.transcribe, .generate, .synthesize, .caption])
    | .ok _ =>
    match st.mux with
    | .error e =>
        (stageFailResponse e,
         [.transcribe, .generate, .synthesize, .caption, .mux])
    | .ok _ =>
    match st.publish with
    | .error e =>
        (stageFailResponse e,
         [.transcribe, .generate, .synthesize, .caption, .mux, .publish])
    | .ok url =>
    match sendEmailNotification st.notify with
    | .error e =>
        (stageFailResponse e,
         [.transcribe, .generate, .synthesize, .caption, .mux, .publish,
          .notify])
    | .ok _ =>
        ({ status := 200, success := true, error := none, details := none
           finalVideoUrl := some url },
         [.transcribe, .generate, .synthesize, .caption, .mux, .publish,
          .notify])

/-- The first exception raised by steps 1–6, in source order. -/
def firstStageError (st : StageOutcomes) : Option String :=
  match st.transcribe with
  | .error e => some e
  | .ok _ =>
  match st.generate with
  | .error e => some e
  | .ok _ =>
  match st.synthesize with
  | .error e => some e
  | .ok _ =>
  match st.caption with
  | .error e => some e
  | .ok _ =>
  match st.mux with
  | .error e => some e
  | .ok _ =>
  match st.publish with
  | .error e => some e
  | .ok _ => none

/-! ## Publisher

Source: `uploadFinalVideo(videoPath, fileId, userEmail)`.  The object name is
`responses/response_${fileId}.mp4` and the returned URL is
`https://storage.googleapis.com/${bucket.name}/${filePath}`. -/

/-- The storage object path `responses/response_${fileId}.mp4`. -/
def uploadFilePath (fileId : String) : String :=
  let fileName := "response_" ++ fileId ++ ".mp4"
  "responses/" ++ fileName

/-- The public URL returned by `uploadFinalVideo`. -/
def uploadFinalVideoUrl (bucketName fileId : String) : String :=
  "https://storage.googleapis.com/" ++ bucketName ++ "/" ++ uploadFilePath fileId

/-! ## Caption sentence splitting

Source: `createAnimatedCaptions`:
`const sentences = text.split(/[.!?]+/).filter(s => s.trim().length > 0);`
`String.prototype.split` with the regex `[.!?]+` cuts the string at every
maximal run of sentence-terminating punctuation (adjacent delimiters form one
cut); the filter keeps the fragments whose `trim()` is non-empty, returning
the fragments themselves, untrimmed. -/

/-- A character in the delimiter class `[.!?]`. -/
def isSentenceDelim (c : Char) : Bool :=
  c == '.' || c == '!' || c == '?'

/-- `split(/[.!?]+/)` on the character list: each maximal run of delimiters
ends the current fragment; `[]` yields the single empty fragment, like
`"".split` yields `[""]`. -/
def splitRuns : List Char → List (List Char)
  | [] => [[]]
  | c :: cs =>
    if isSentenceDelim c then
      match cs with
      | d :: _ => if isSentenceDelim d then splitRuns cs else [] :: splitRuns cs
      | [] => [] :: splitRuns cs
    else
      match splitRuns cs with
      | [] => [[c]]
      | h :: t => (c :: h) :: t

/-- `String.prototype.trim` on a character list (strip leading and trailing
whitespace). -/
def trimChars (l : List Char) : List Char :=
  ((l.dropWhile Char.isWhitespace).reverse.dropWhile Char.isWhitespace).reverse

/-- The sentence list computed by `createAnimatedCaptions`:
`text.split(/[.!?]+/).filter(s => s.trim().length > 0)`. -/
def splitSentences (text : String) : List String :=
  ((splitRuns text.data).filter (fun s => (trimChars s).length > 0)).map
    (fun l => ⟨l⟩)

/-! ## Caption rendering

Source: `createCaptionsVideo(sentences, outputPath)`.  For sentence `index`
it emits a `drawtext` filter with text `sentence.replace(/'/g, "\\'")` and
`enable='between(t,${startTime},${startTime + 2.5})'` where
`startTime = index * 3`; the video duration is `sentences.length * 3`. -/

/-- `sentence.replace(/'/g, "\\'")`: every single quote becomes the two-byte
sequence backslash–quote; other characters are unchanged. -/
def escapeQuotes (s : String) : String :=
  ⟨(s.data.map (fun c => if c == '\'' then ['\\', '\''] else [c])).flatten⟩

/-- One `drawtext` entry of the filtergraph: the escaped text and the two
endpoints of its `between(t,start,end)` enable window, in seconds. -/
structure DrawText where
  text : String
  enableStart : ℚ
  enableEnd : ℚ
deriving DecidableEq, Repr

/-- The `sentences.map((sentence, index) => ...)` of `createCaptionsVideo`,
with the running index made explicit. -/
def captionsFilterFrom (index : Nat) : List String → List DrawText
  | [] => []
  | sentence :: rest =>
    { text := escapeQuotes sentence
      enableStart := 3 * index
      enableEnd := 3 * index + 2.5 } :: captionsFilterFrom (index + 1) rest

/-- The list of `drawtext` entries `createCaptionsVideo` joins (with `,`)
into its `-vf` filtergraph. -/
def captionsFilter (sentences : List String) : List DrawText :=
  captionsFilterFrom 0 sentences

/-- `const duration = sentences.length * 3;` — the `duration=` argument of
the `color` source in the transcoder command, in seconds. -/
def captionDuration (sentences : List String) : Nat :=
  sentences.length * 3

/-! ## Response generator

Source: `generateAIResponse(transcription, topic)` builds one template-string
prompt; `${topic || 'General debate'}` substitutes the fallback when `topic`
is `undefined` or the empty string. -/

/-- The `topic || 'General debate'` fallback. -/
def topicOrDefault : Option String → String
  | none => "General debate"
  | some t => if t == "" then "General debate" else t

/-- The prompt template of `generateAIResponse`, with the transcription and
topic interpolated. -/
def generatePrompt (transcription : String) (topic : Option String) : String :=
  "You are an expert debate coach and AI assistant. Analyze the following debate video transcription and provide a thoughtful, engaging response.\n\nTranscription: \""
    ++ transcription
    ++ "\"\n\nTopic: "
    ++ topicOrDefault topic
    ++ "\n\nPlease provide:\n1. A brief acknowledgment of the speaker's points\n2. A thoughtful counter-argument or additional perspective\n3. Constructive feedback or suggestions\n4. An encouraging conclusion\n\nMake your response engaging, respectful, and educational. Aim for approximately 150-200 words that would take about 60-90 seconds to speak naturally."

/-! ## Job-scoped temporary file paths

Each pipeline stage keys its `/tmp` paths off the job's `fileId`:
`downloadAndTranscribe` uses `/tmp/${fileId}_input.mp4` and
`/tmp/${fileId}_audio.wav`; `generateVoiceOver` uses
`/tmp/${fileId}_response.wav`; `createAnimatedCaptions` uses
`/tmp/${fileId}_captions.mp4`; `combineVideoAndAudio` uses
`/tmp/${fileId}_final.mp4`. -/

def videoPathOf (fileId : String) : String := "/tmp/" ++ fileId ++ "_input.mp4"

def audioPathOf (fileId : String) : String := "/tmp/" ++ fileId ++ "_audio.wav"

def responsePathOf (fileId : String) : String :=
  "/tmp/" ++ fileId ++ "_response.wav"

def captionsPathOf (fileId : String) : String :=
  "/tmp/" ++ fileId ++ "_captions.mp4"

def finalPathOf (fileId : String) : String := "/tmp/" ++ fileId ++ "_final.mp4"

/-- All temporary file paths the pipeline uses for one job. -/
def jobTempPaths (fileId : String) : List String :=
  [videoPathOf fileId, audioPathOf fileId, responsePathOf fileId,
   captionsPathOf fileId, finalPathOf fileId]

/-! ## Property-side definitions -/

/-- Every single quote in the character list is consumed as part of a
backslash–quote pair: scanning left to right, a bare quote is illegal, and a
backslash immediately followed by a quote absorbs it. -/
def quotesEscaped : List Char → Bool
  | [] => true
  | [c] => !(c == '\'')
  | c :: d :: rest =>
    if c == '\'' then false
    else if c == '\\' && d == '\'' then quotesEscaped rest
    else quotesEscaped (d :: rest)

/-- Number of single-quote characters in a character list. -/
def countQuotes (l : List Char) : Nat :=
  l.countP (fun c => c == '\'')

end DebateVideo

namespace DebateVideo

/-! ## Theorems -/

/-- C6: for every job id and configured bucket name, the publish step stores
the final artifact under a name derived from the job id, and the returned
URL is exactly `https://storage.googleapis.com/<bucket>/responses/response_<jobId>.mp4`;
in particular for job id `abc123` it is
`https://storage.googleapis.com/<bucket>/responses/response_abc123.mp4`. -/
theorem uploadFinalVideo_url_exact (bucketName fileId : String) :
    (∃ pre post, uploadFilePath fileId = pre ++ fileId ++ post) ∧
    uploadFinalVideoUrl bucketName fileId =
      "https://storage.googleapis.com/" ++ bucketName ++ "/responses/response_"
        ++ fileId ++ ".mp4" ∧
    uploadFinalVideoUrl bucketName "abc123" =
      "https://storage.googleapis.com/" ++ bucketName
        ++ "/responses/response_abc123.mp4" := by
  refine ⟨⟨"responses/response_", ".mp4", ?_⟩, ?_, ?_⟩ <;>
    · apply String.ext
      simp only [uploadFinalVideoUrl, uploadFilePath, String.data_append,
        List.append_assoc]
      rfl

/-- C5: the prompt built by `generateAIResponse` is a deterministic function
of the transcript and topic (it is a pure function of them), and for every
transcript and non-empty topic, the prompt contains the transcript and the
topic verbatim. -/
theorem generatePrompt_contains (transcription topic : String)
    (h : topic ≠ "") :
    (∃ p q, generatePrompt transcription (some topic) = p ++ transcription ++ q) ∧
    (∃ p q, generatePrompt transcription (some topic) = p ++ topic ++ q) := by
  have ht : topicOrDefault (some topic) = topic := by
    simp [topicOrDefault, h]
  constructor
  · refine ⟨"You are an expert debate coach and AI assistant. Analyze the following debate video transcription and provide a thoughtful, engaging response.\n\nTranscription: \"",
      "\"\n\nTopic: " ++ topic
        ++ "\n\nPlease provide:\n1. A brief acknowledgment of the speaker's points\n2. A thoughtful counter-argument or additional perspective\n3. Constructive feedback or suggestions\n4. An encouraging conclusion\n\nMake your response engaging, respectful, and educational. Aim for approximately 150-200 words that would take about 60-90 seconds to speak naturally.",
      ?_⟩
    simp [generatePrompt, ht, String.append_assoc]
  · refine ⟨"You are an expert debate coach and AI assistant. Analyze the following debate video transcription and provide a thoughtful, engaging response.\n\nTranscription: \""
      ++ transcription ++ "\"\n\nTopic: ",
      "\n\nPlease provide:\n1. A brief acknowledgment of the speaker's points\n2. A thoughtful counter-argument or additional perspective\n3. Constructive feedback or suggestions\n4. An encouraging conclusion\n\nMake your response engaging, respectful, and educational. Aim for approximately 150-200 words that would take about 60-90 seconds to speak naturally.",
      ?_⟩
    simp [generatePrompt, ht, String.append_assoc]

/-- Closed witness for `generatePrompt_contains` at transcript `"T"` and
topic `"climate"`. -/
theorem generatePrompt_contains_witness :
    ("climate" : String) ≠ "" ∧
    ((∃ p q, generatePrompt "T" (some "climate") = p ++ "T" ++ q) ∧
     (∃ p q, generatePrompt "T" (some "climate") = p ++ "climate" ++ q)) :=
  ⟨by decide, generatePrompt_contains "T" "climate" (by decide)⟩

/-- C1: every request body missing `videoUrl`, `fileId`, or `userEmail`
gets a 400 response whose body has `success:false` and an error message,
whatever the remaining fields and stage outcomes are. -/
theorem missing_required_gives_400 (req : ReqBody) (st : StageOutcomes)
    (h : req.videoUrl = none ∨ req.fileId = none ∨ req.userEmail = none) :
    (processDebateVideo req st).1.status = 400 ∧
    (processDebateVideo req st).1.success = false ∧
    (processDebateVideo req st).1.error.isSome = true := by
  have hm : missingRequired req = true := by
    rcases h with h | h | h <;> simp [missingRequired, truthy, h]
  simp [processDebateVideo, hm, validationFailResponse]

/-- Closed witness for `missing_required_gives_400`: a body with no
`videoUrl` but every other field present, all stages succeeding. -/
theorem missing_required_gives_400_witness :
    (({ videoUrl := none, fileId := some "f", fileName := some "n",
        userEmail := some "e@x", topic := some "t" } : ReqBody).videoUrl = none
      ∨ ({ videoUrl := none, fileId := some "f", fileName := some "n",
           userEmail := some "e@x", topic := some "t" } : ReqBody).fileId = none
      ∨ ({ videoUrl := none, fileId := some "f", fileName := some "n",
           userEmail := some "e@x", topic := some "t" } : ReqBody).userEmail
          = none) ∧
    ((processDebateVideo
        { videoUrl := none, fileId := some "f", fileName := some "n",
          userEmail := some "e@x", topic := some "t" }
        { transcribe := .ok "tr", generate := .ok "ai", synthesize := .ok "a",
          caption := .ok "c", mux := .ok "m", publish := .ok "u",
          notify := .ok () }).1.status = 400 ∧
     (processDebateVideo
        { videoUrl := none, fileId := some "f", fileName := some "n",
          userEmail := some "e@x", topic := some "t" }
        { transcribe := .ok "tr", generate := .ok "ai", synthesize := .ok "a",
          caption := .ok "c", mux := .ok "m", publish := .ok "u",
          notify := .ok () }).1.success = false ∧
     (processDebateVideo
        { videoUrl := none, fileId := some "f", fileName := some "n",
          userEmail := some "e@x", topic := some "t" }
        { transcribe := .ok "tr", generate := .ok "ai", synthesize := .ok "a",
          caption := .ok "c", mux := .ok "m", publish := .ok "u",
          notify := .ok () }).1.error.isSome = true) :=
  ⟨Or.inl rfl,
   missing_required_gives_400 _ _ (Or.inl rfl)⟩

/-- C10: a request in which `videoUrl`, `fileId`, or `userEmail` is present
but equal to the empty string is rejected with the same 400 response as an
absent field (the guard tests JavaScript truthiness, not key presence), no
pipeline stage is started on that path, and the result is identical to the
one for the request with the required fields absent. -/
theorem empty_string_field_gives_400 (req : ReqBody) (st : StageOutcomes)
    (h : req.videoUrl = some "" ∨ req.fileId = some ""
         ∨ req.userEmail = some "") :
    (processDebateVideo req st).1 = validationFailResponse ∧
    (processDebateVideo req st).2 = [] ∧
    processDebateVideo req st =
      processDebateVideo
        { req with videoUrl := none, fileId := none, userEmail := none } st := by
  have hm : missingRequired req = true := by
    rcases h with h | h | h <;> simp [missingRequired, truthy, h]
  have hm' : missingRequired
      { req with videoUrl := none, fileId := none, userEmail := none } = true := by
    simp [missingRequired, truthy]
  simp [processDebateVideo, hm, hm']

/-- Closed witness for `empty_string_field_gives_400`: `userEmail` present
but empty, all stages succeeding. -/
theorem empty_string_field_gives_400_witness :
    (({ videoUrl := some "http://v", fileId := some "f", fileName := none,
        userEmail := some "", topic := none } : ReqBody).videoUrl = some ""
      ∨ ({ videoUrl := some "http://v", fileId := some "f", fileName := none,
           userEmail := some "", topic := none } : ReqBody).fileId = some ""
      ∨ ({ videoUrl := some "http://v", fileId := some "f", fileName := none,
           userEmail := some "", topic := none } : ReqBody).userEmail
          = some "") ∧
    ((processDebateVideo
        { videoUrl := some "http://v", fileId := some "f", fileName := none,
          userEmail := some "", topic := none }
        { transcribe := .ok "tr", generate := .ok "ai", synthesize := .ok "a",
          caption := .ok "c", mux := .ok "m", publish := .ok "u",
          notify := .ok () }).1 = validationFailResponse ∧
     (processDebateVideo
        { videoUrl := some "http://v", fileId := some "f", fileName := none,
          userEmail := some "", topic := none }
        { transcribe := .ok "tr", generate := .ok "ai", synthesize := .ok "a",
          caption := .ok "c", mux := .ok "m", publish := .ok "u",
          notify := .ok () }).2 = [] ∧
     processDebateVideo
        { videoUrl := some "http://v", fileId := some "f", fileName := none,
          userEmail := some "", topic := none }
        { transcribe := .ok "tr", generate := .ok "ai", synthesize := .ok "a",
          caption := .ok "c", mux := .ok "m", publish := .ok "u",
          notify := .ok () } =
       processDebateVideo
        { videoUrl := none, fileId := none, fileName := none,
          userEmail := none, topic := none }
        { transcribe := .ok "tr", generate := .ok "ai", synthesize := .ok "a",
          caption := .ok "c", mux := .ok "m", publish := .ok "u",
          notify := .ok () }) :=
  ⟨Or.inr (Or.inr rfl),
   empty_string_field_gives_400 _ _ (Or.inr (Or.inr rfl))⟩

/-- C7: for a request that passes validation, the first exception raised in
stages 1–6 aborts the request with the 500 body
`{success:false, error, details}`; when all six stages succeed the request
is a 200 success; and the notification outcome never changes the response
(`sendEmailNotification` swallows its failure). -/
theorem stage_failure_propagation (req : ReqBody) (st : StageOutcomes)
    (hv : missingRequired req = false) :
    (∀ e, firstStageError st = some e →
        (processDebateVideo req st).1 = stageFailResponse e) ∧
    (firstStageError st = none →
        (processDebateVideo req st).1.status = 200 ∧
        (processDebateVideo req st).1.success = true) ∧
    (∀ n, processDebateVideo req { st with notify := n } =
        processDebateVideo req st) := by
  obtain ⟨t, g, sy, ca, mu, pu, no⟩ := st
  refine ⟨?_, ?_, ?_⟩
  · intro e he
    cases t <;> cases g <;> cases sy <;> cases ca <;> cases mu <;> cases pu <;>
      simp_all [processDebateVideo, firstStageError, hv, sendEmailNotification]
  · intro he
    cases t <;> cases g <;> cases sy <;> cases ca <;> cases mu <;> cases pu <;>
      cases no <;>
      simp_all [processDebateVideo, firstStageError, hv, sendEmailNotification]
  · intro n
    cases t <;> cases g <;> cases sy <;> cases ca <;> cases mu <;> cases pu <;>
      cases no <;> cases n <;>
      simp_all [processDebateVideo, firstStageError, hv, sendEmailNotification]

/-- Closed witness for `stage_failure_propagation`: a valid request where
stage 4 (captions) raises. -/
theorem stage_failure_propagation_witness :
    missingRequired
      { videoUrl := some "http://v", fileId := some "f", fileName := none,
        userEmail := some "e@x", topic := none } = false ∧
    ((∀ e, firstStageError
          { transcribe := .ok "tr", generate := .ok "ai",
            synthesize := .ok "a", caption := .error "boom", mux := .ok "m",
            publish := .ok "u", notify := .ok () } = some e →
        (processDebateVideo
          { videoUrl := some "http://v", fileId := some "f", fileName := none,
            userEmail := some "e@x", topic := none }
          { transcribe := .ok "tr", generate := .ok "ai",
            synthesize := .ok "a", caption := .error "boom", mux := .ok "m",
            publish := .ok "u", notify := .ok () }).1 = stageFailResponse e) ∧
     (firstStageError
          { transcribe := .ok "tr", generate := .ok "ai",
            synthesize := .ok "a", caption := .error "boom", mux := .ok "m",
            publish := .ok "u", notify := .ok () } = none →
        (processDebateVideo
          { videoUrl := some "http://v", fileId := some "f", fileName := none,
            userEmail := some "e@x", topic := none }
          { transcribe := .ok "tr", generate := .ok "ai",
            synthesize := .ok "a", caption := .error "boom", mux := .ok "m",
            publish := .ok "u", notify := .ok () }).1.status = 200 ∧
        (processDebateVideo
          { videoUrl := some "http://v", fileId := some "f", fileName := none,
            userEmail := some "e@x", topic := none }
          { transcribe := .ok "tr", generate := .ok "ai",
            synthesize := .ok "a", caption := .error "boom", mux := .ok "m",
            publish := .ok "u", notify := .ok () }).1.success = true) ∧
     (∀ n, processDebateVideo
          { videoUrl := some "http://v", fileId := some "f", fileName := none,
            userEmail := some "e@x", topic := none }
          { transcribe := .ok "tr", generate := .ok "ai",
            synthesize := .ok "a", caption := .error "boom", mux := .ok "m",
            publish := .ok "u", notify := n } =
        processDebateVideo
          { videoUrl := some "http://v", fileId := some "f", fileName := none,
            userEmail := some "e@x", topic := none }
          { transcribe := .ok "tr", generate := .ok "ai",
            synthesize := .ok "a", caption := .error "boom", mux := .ok "m",
            publish := .ok "u", notify := .ok () })) :=
  ⟨by decide, stage_failure_propagation _ _ (by decide)⟩

/-- `split(/[.!?]+/)` never returns an empty fragment list. -/
theorem splitRuns_ne_nil (l : List Char) : splitRuns l ≠ [] := by
  induction l using splitRuns.induct <;> simp_all [splitRuns]

/-- Unfolding: a delimiter followed by another delimiter is absorbed into
the same run. -/
theorem splitRuns_cons_dd (c d : Char) (tail : List Char)
    (hc : isSentenceDelim c = true) (hd : isSentenceDelim d = true) :
    splitRuns (c :: d :: tail) = splitRuns (d :: tail) := by
  simp [splitRuns, hc, hd]

/-- Unfolding: a delimiter followed by a non-delimiter ends the run and the
current fragment. -/
theorem splitRuns_cons_dn (c d : Char) (tail : List Char)
    (hc : isSentenceDelim c = true) (hd : isSentenceDelim d = false) :
    splitRuns (c :: d :: tail) = [] :: splitRuns (d :: tail) := by
  simp [splitRuns, hc, hd]

/-- Unfolding: a non-delimiter is prepended to the first fragment. -/
theorem splitRuns_cons_n (c : Char) (cs : List Char) (h : List Char)
    (t : List (List Char)) (hc : isSentenceDelim c = false)
    (hm : splitRuns cs = h :: t) :
    splitRuns (c :: cs) = (c :: h) :: t := by
  simp [splitRuns, hc, hm]

/-- Every fragment produced by `split(/[.!?]+/)` is free of the delimiter
characters. -/
theorem splitRuns_no_delim (l : List Char) :
    ∀ f ∈ splitRuns l, ∀ c ∈ f, isSentenceDelim c = false := by
  induction l using splitRuns.induct with
  | case1 =>
    intro f hf c hc
    simp [splitRuns] at hf
    simp [hf] at hc
  | case2 c hd d tail hdd ih =>
    intro f hf x hx
    rw [splitRuns_cons_dd c d tail hd hdd] at hf
    exact ih f hf x hx
  | case3 c hd d tail hdd ih =>
    intro f hf x hx
    rw [splitRuns_cons_dn c d tail hd (by simpa using hdd)] at hf
    rcases List.mem_cons.mp hf with h | h
    · simp [h] at hx
    · exact ih f h x hx
  | case4 c hd ih =>
    intro f hf x hx
    simp only [splitRuns, hd, if_true] at hf
    rcases List.mem_cons.mp hf with h | h
    · simp [h] at hx
    · exact ih f h x hx
  | case5 c cs hd hm ih =>
    exact absurd hm (splitRuns_ne_nil cs)
  | case6 c cs hd h t hm ih =>
    intro f hf x hx
    rw [splitRuns_cons_n c cs h t (by simpa using hd) hm] at hf
    rcases List.mem_cons.mp hf with hfe | hfe
    · subst hfe
      rcases List.mem_cons.mp hx with hxe | hxe
      · subst hxe; simpa using hd
      · exact ih h (by rw [hm]; exact List.mem_cons_self _ _) x hxe
    · exact ih f (by rw [hm]; exact List.mem_cons_of_mem _ hfe) x hx

/-- C2 counterexample: the splitter does not trim the retained fragments, so
`"A. B! C?"` does not yield `["A","B","C"]` (it yields `["A", " B", " C"]`). -/
theorem splitSentences_not_trimmed :
    splitSentences "A. B! C?" ≠ ["A", "B", "C"] := by decide

/-- C2 (amended): the splitter cuts the text at every maximal run of the
sentence-terminating characters `.`, `!`, `?` and discards the fragments
that are empty or whitespace-only; the retained fragments keep their
original surrounding whitespace (`trim` is only used to test emptiness).
Input `"A. B! C?"` yields `["A", " B", " C"]` and `""` yields no
sentences; every retained sentence contains no delimiter character and
does not trim to the empty string. -/
theorem splitSentences_spec :
    splitSentences "A. B! C?" = ["A", " B", " C"] ∧
    splitSentences "" = [] ∧
    ∀ text : String, ∀ s ∈ splitSentences text,
      (∀ c ∈ s.data, isSentenceDelim c = false) ∧ trimChars s.data ≠ [] := by
  refine ⟨by decide, by decide, ?_⟩
  intro text s hs
  simp only [splitSentences, List.mem_map, List.mem_filter] at hs
  obtain ⟨l, ⟨hl, hlen⟩, rfl⟩ := hs
  refine ⟨fun c hc => splitRuns_no_delim text.data l hl c hc, ?_⟩
  intro hnil
  rw [hnil] at hlen
  simp at hlen

/-- Closed witness for `splitSentences_spec`, applying it to the fragment
`" B"` of `"A. B! C?"`. -/
theorem splitSentences_spec_witness :
    (" B" : String) ∈ splitSentences "A. B! C?" ∧
    ((∀ c ∈ (" B" : String).data, isSentenceDelim c = false) ∧
     trimChars (" B" : String).data ≠ []) :=
  ⟨by decide, splitSentences_spec.2.2 "A. B! C?" " B" (by decide)⟩

/-- The filter list is as long as the sentence list. -/
theorem captionsFilterFrom_length (i : Nat) (l : List String) :
    (captionsFilterFrom i l).length = l.length := by
  induction l generalizing i with
  | nil => rfl
  | cons s rest ih => simp [captionsFilterFrom, ih]

/-- The `drawtext` entry at position `j` of the filter built from running
index `i` shows the escaped sentence `j` from `t = 3(i+j)` to
`t = 3(i+j) + 2.5`. -/
theorem captionsFilterFrom_get (i : Nat) (l : List String) (j : Nat)
    (hj : j < (captionsFilterFrom i l).length) (hj' : j < l.length) :
    (captionsFilterFrom i l).get ⟨j, hj⟩ =
      { text := escapeQuotes (l.get ⟨j, hj'⟩)
        enableStart := 3 * (i + j)
        enableEnd := 3 * (i + j) + 2.5 } := by
  induction l generalizing i j with
  | nil => simp at hj'
  | cons s rest ih =>
    cases j with
    | zero => simp [captionsFilterFrom]
    | succ j' =>
      have hj2 : j' < (captionsFilterFrom (i + 1) rest).length := by
        rw [captionsFilterFrom_length]
        exact Nat.lt_of_succ_lt_succ hj'
      have := ih (i + 1) j' hj2 (Nat.lt_of_succ_lt_succ hj')
      simp only [captionsFilterFrom, List.get_cons_succ]
      rw [this]
      congr 1 <;> push_cast <;> ring

/-- C3: for every non-empty sentence list, the `drawtext` entry for sentence
index `i` (0-based) is enabled exactly on the window `[3i, 3i+2.5]` seconds,
and the duration passed to the transcoder is exactly `3 × N` seconds for `N`
sentences. -/
theorem caption_timing (sentences : List String) (hne : sentences ≠ [])
    (i : Nat) (hi : i < (captionsFilter sentences).length) :
    ((captionsFilter sentences).get ⟨i, hi⟩).enableStart = 3 * i ∧
    ((captionsFilter sentences).get ⟨i, hi⟩).enableEnd = 3 * i + 2.5 ∧
    captionDuration sentences = 3 * sentences.length := by
  have hi' : i < sentences.length := by
    have := hi
    rw [captionsFilter, captionsFilterFrom_length] at this
    exact this
  have hget := captionsFilterFrom_get 0 sentences i (by simpa [captionsFilter] using hi) hi'
  refine ⟨?_, ?_, by simp [captionDuration, Nat.mul_comm]⟩ <;>
    · simp only [captionsFilter] at hget ⊢
      rw [hget]
      simp

/-- Closed witness for `caption_timing` on the two-sentence list
`["A", "B"]` at index 1. -/
theorem caption_timing_witness :
    ((captionsFilter ["A", "B"]).get ⟨1, by decide⟩).enableStart = 3 * 1 ∧
    ((captionsFilter ["A", "B"]).get ⟨1, by decide⟩).enableEnd = 3 * 1 + 2.5 ∧
    captionDuration ["A", "B"] = 3 * (["A", "B"] : List String).length :=
  caption_timing ["A", "B"] (by decide) 1 (by decide)

/-- After `replace(/'/g, "\\'")`, every single quote in the output is part
of a backslash–quote pair. -/
theorem quotesEscaped_escapeQuotes (l : List Char) :
    quotesEscaped
      ((l.map (fun c => if c == '\'' then ['\\', '\''] else [c])).flatten)
      = true := by
  induction l with
  | nil => rfl
  | cons c rest ih =>
    by_cases hc : c = '\''
    · subst hc
      simpa [quotesEscaped] using ih
    · rcases hL : (rest.map
          (fun c => if c == '\'' then ['\\', '\''] else [c])).flatten
          with _ | ⟨d, L'⟩
      · simp only [List.map_cons, List.flatten_cons, hL]
        simp [quotesEscaped, hc]
      · rw [hL] at ih
        by_cases hd : d = '\''
        · exfalso
          subst hd
          rcases L' with _ | ⟨e, L''⟩ <;> simp [quotesEscaped] at ih
        · simp only [List.map_cons, List.flatten_cons, hL]
          simp [quotesEscaped, hc, hd, ih]

/-- `replace(/'/g, "\\'")` preserves the number of single quotes. -/
theorem countQuotes_escapeQuotes (l : List Char) :
    countQuotes
      ((l.map (fun c => if c == '\'' then ['\\', '\''] else [c])).flatten)
      = countQuotes l := by
  induction l with
  | nil => rfl
  | cons c rest ih =>
    by_cases hc : c = '\''
    · subst hc
      simp [countQuotes, List.countP_append, List.countP_cons] at ih ⊢
      omega
    · simp [countQuotes, List.countP_append, List.countP_cons, hc] at ih ⊢
      exact ih

/-- C4: for every sentence, the render-command text produced by
`replace(/'/g, "\\'")` has every single quote escaped (each quote in the
output is part of a backslash–quote pair) and contains the escaped form of
every quote of the input (the quote count is preserved); in particular no
unescaped single quote from the sentence survives. -/
theorem escapeQuotes_escapes (s : String) :
    quotesEscaped (escapeQuotes s).data = true ∧
    countQuotes (escapeQuotes s).data = countQuotes s.data :=
  ⟨quotesEscaped_escapeQuotes s.data, countQuotes_escapeQuotes s.data⟩

/-- C8 (the code at the failing input): for the empty generated text the
splitter yields zero sentences, and the renderer then builds a transcoder
request with duration `0` seconds and an empty filtergraph — it neither
rejects the input nor renders a minimum one-frame clip. -/
theorem captions_zero_sentences :
    splitSentences "" = [] ∧
    captionDuration (splitSentences "") = 0 ∧
    captionsFilter (splitSentences "") = [] := by
  refine ⟨by decide, rfl, rfl⟩

/-- Two appended character lists can only be equal when one trailing part is
a suffix of the other (stated via reversed prefixes). -/
theorem append_eq_rev_prefix_cases {a b x y : List Char}
    (h : a ++ x = b ++ y) :
    x.reverse <+: y.reverse ∨ y.reverse <+: x.reverse := by
  have hr : x.reverse ++ a.reverse = y.reverse ++ b.reverse := by
    rw [← List.reverse_append, ← List.reverse_append, h]
  exact List.prefix_or_prefix_of_prefix
    (List.prefix_append x.reverse a.reverse)
    (hr ▸ List.prefix_append y.reverse b.reverse)

/-- Two job-scoped temp paths with incomparable suffixes are distinct. -/
theorem tempPath_ne {f₁ f₂ s₁ s₂ : String}
    (h₁ : ¬ (s₁.data.reverse <+: s₂.data.reverse))
    (h₂ : ¬ (s₂.data.reverse <+: s₁.data.reverse)) :
    "/tmp/" ++ f₁ ++ s₁ ≠ "/tmp/" ++ f₂ ++ s₂ := by
  intro h
  have hd := congrArg String.data h
  simp only [String.data_append, List.append_assoc] at hd
  have hd' := List.append_cancel_left hd
  rcases append_eq_rev_prefix_cases hd' with hp | hp
  · exact h₁ hp
  · exact h₂ hp

/-- Two job-scoped temp paths with the same suffix come from the same job
id. -/
theorem tempPath_same_suffix {f₁ f₂ s : String}
    (h : "/tmp/" ++ f₁ ++ s = "/tmp/" ++ f₂ ++ s) : f₁ = f₂ := by
  have hd := congrArg String.data h
  simp only [String.data_append, List.append_assoc] at hd
  have hd' := List.append_cancel_left hd
  exact String.ext (List.append_cancel_right hd')

/-- C9: every temporary file path of the pipeline contains the job id, and
two jobs with distinct ids use disjoint sets of temporary paths, so
concurrent jobs never share an intermediate file. -/
theorem temp_paths_job_scoped :
    (∀ fileId : String, ∀ p ∈ jobTempPaths fileId,
        ∃ pre post, p = pre ++ fileId ++ post) ∧
    (∀ f₁ f₂ : String, f₁ ≠ f₂ →
        ∀ p ∈ jobTempPaths f₁, p ∉ jobTempPaths f₂) := by
  constructor
  · intro fileId p hp
    simp only [jobTempPaths, videoPathOf, audioPathOf, responsePathOf,
      captionsPathOf, finalPathOf, List.mem_cons, List.mem_singleton,
      List.not_mem_nil, or_false] at hp
    rcases hp with h | h | h | h | h <;>
      exact ⟨"/tmp/", _, h⟩
  · intro f₁ f₂ hne p hp hq
    simp only [jobTempPaths, videoPathOf, audioPathOf, responsePathOf,
      captionsPathOf, finalPathOf, List.mem_cons, List.mem_singleton,
      List.not_mem_nil, or_false] at hp hq
    rcases hp with h | h | h | h | h <;> subst h <;>
      rcases hq with h | h | h | h | h <;>
      first
        | exact hne (tempPath_same_suffix h)
        | exact tempPath_ne (by decide) (by decide) h

/-- Closed witness for `temp_paths_job_scoped`: the input-video path of job
`"a"` is not a temp path of job `"b"`. -/
theorem temp_paths_job_scoped_witness :
    ("a" : String) ≠ "b" ∧ videoPathOf "a" ∈ jobTempPaths "a" ∧
    videoPathOf "a" ∉ jobTempPaths "b" :=
  ⟨by decide, by simp [jobTempPaths],
   temp_paths_job_scoped.2 "a" "b" (by decide) (videoPathOf "a")
     (by simp [jobTempPaths])⟩

end DebateVideo
